import Mathlib

/-!
Verification of the retry/classification/fallback engine in
`src/price_client.py` (`get_hyperliquid_price`).

The Python function is shallowly embedded: each HTTP attempt's observable
outcome (a status/headers/body response, a timeout, or a connection-level
failure) is an `AttemptOutcome`; the body of the `for attempt in range(1,
MAX_RETRIES + 1)` loop is the function `classifyAttempt`; the loop itself is
`fetchAux`, driven by an environment `o : ℕ → AttemptOutcome` giving the
result of the n-th HTTP call. The global dict `_last_known_prices` is
threaded explicitly as a `Cache`. Python floats are modelled by `PyFloat`
(an exact rational for finite values, plus `inf`, `negInf`, `nan`, with IEEE
comparison semantics for `<= 0`); Python values reachable from a parsed JSON
body by `PyVal`. `time.sleep` calls are recorded in a list of delays.
-/

namespace PriceClient

/-- A Python float as produced by `response.json()` / `float(...)`:
an exact finite value, or one of the IEEE non-finite values (Python's
`json` module parses the tokens `Infinity`, `-Infinity`, `NaN` by default). -/
inductive PyFloat where
  | finite (q : ℚ)
  | inf
  | negInf
  | nan
deriving DecidableEq, Repr

/-- `math.isfinite` on a Python float. -/
def PyFloat.finiteVal : PyFloat → Bool
  | .finite _ => true
  | _ => false

/-- A Python value that can appear as the `"price"` field of a parsed JSON
object: `None` (from JSON `null`), a bool, an int, a float, a string, or
some other non-numeric structure (list/dict). -/
inductive PyVal where
  | vnone
  | vbool (b : Bool)
  | vint (n : ℤ)
  | vfloat (x : PyFloat)
  | vstr (s : String)
  | vother
deriving DecidableEq, Repr

/-- `isinstance(price, (int, float))`.  In Python, `bool` is a subclass of
`int`, so booleans pass this check. -/
def isNumericPy : PyVal → Bool
  | .vbool _ => true
  | .vint _ => true
  | .vfloat _ => true
  | _ => false

/-- The Python comparison `price <= 0`, for the values on which the source
evaluates it.  IEEE semantics: `inf <= 0` and `nan <= 0` are false,
`-inf <= 0` is true; `True == 1`, `False == 0`. -/
def leZeroPy : PyVal → Bool
  | .vbool b => !b
  | .vint n => decide (n ≤ 0)
  | .vfloat (.finite q) => decide (q ≤ 0)
  | .vfloat .negInf => true
  | .vfloat .inf => false
  | .vfloat .nan => false
  | _ => false

/-- The Python conversion `float(price)` for numeric values. -/
def toFloatPy : PyVal → PyFloat
  | .vbool b => .finite (if b then 1 else 0)
  | .vint n => .finite (n : ℚ)
  | .vfloat x => x
  | _ => .finite 0

/-- The body of a 200 response: either `response.json()` raises `ValueError`
(`malformed`), or it yields a dict whose `"price"` field is absent (`none`)
or holds the Python value `some v`.  A top-level non-dict JSON document is
outside the model (the source would crash with `AttributeError` on `.get`). -/
inductive Body where
  | malformed
  | object (price : Option PyVal)
deriving DecidableEq, Repr

/-- The observable outcome of one `requests.get` call: a response with a
status code, an optional `Retry-After` header value and a body; or a
`requests.exceptions.Timeout`; or another `RequestException`
(connection-level failure). -/
inductive AttemptOutcome where
  | response (status : ℕ) (retryAfter : Option String) (body : Body)
  | timeout
  | connectionError
deriving DecidableEq, Repr

/-- `MAX_RETRIES = 3` from the source configuration block. -/
def MAX_RETRIES : ℕ := 3

/-- `int(s)` on a string of ASCII digits. -/
def strToNat (s : String) : ℕ :=
  s.toList.foldl (fun a c => 10 * a + (c.toNat - 48)) 0

/-- The Python test `retry_after and retry_after.isdigit()`: the header
string is non-empty and all characters are digits (ASCII header model). -/
def isDigitStr (s : String) : Bool :=
  !s.isEmpty && s.toList.all Char.isDigit

/-- `int(retry_after) if retry_after and retry_after.isdigit() else None`:
header absent, empty, or non-digits gives `None`. -/
def parseRetryAfter : Option String → Option ℕ
  | none => none
  | some s => if isDigitStr s then some (strToNat s) else none

/-- The global dict `_last_known_prices`, modelled as an association list
keyed by symbol. -/
abbrev Cache := List (String × PyFloat)

/-- Dict read: `_last_known_prices[symbol]` / `symbol in _last_known_prices`. -/
def cacheGet : Cache → String → Option PyFloat
  | [], _ => none
  | (k, v) :: rest, s => if k = s then some v else cacheGet rest s

/-- Dict write: `_last_known_prices[symbol] = price_float` (overwrites). -/
def cacheSet (c : Cache) (k : String) (v : PyFloat) : Cache :=
  (k, v) :: c.filter (fun p => p.1 ≠ k)

/-- Reason strings of `InvalidPriceDataError` raises in the source. -/
inductive InvReason where
  | malformedJson
  | missingPrice
  | nonNumeric
  | nonPositive
deriving DecidableEq, Repr

/-- The retryable failure recorded in `last_exception`: the
`HyperLiquidAPIError` built in the 5xx branch, the caught `Timeout`, or the
caught `RequestException`. -/
inductive RetryCause where
  | serverError (status : ℕ)
  | timeout
  | connError
deriving DecidableEq, Repr

/-- The terminal error surfaced to the caller, tagged by the raise site. -/
inductive FetchError where
  | rateLimited (retryAfter : Option ℕ)
  | invalidPayload (r : InvReason)
  | clientError (status : ℕ)
  | unexpectedStatus (status : ℕ)
  | retryExhausted (cause : Option RetryCause)
deriving DecidableEq, Repr

/-- The Python exception classes defined in the source. -/
inductive PyExcClass where
  | hyperLiquidAPIError
  | rateLimitError
  | invalidPriceDataError
  | retryExhaustedError
deriving DecidableEq, Repr

/-- The exception class each raise site uses.  The client-error and
unexpected-status branches both raise the base class `HyperLiquidAPIError`. -/
def pyClassOf : FetchError → PyExcClass
  | .rateLimited _ => .rateLimitError
  | .invalidPayload _ => .invalidPriceDataError
  | .clientError _ => .hyperLiquidAPIError
  | .unexpectedStatus _ => .hyperLiquidAPIError
  | .retryExhausted _ => .retryExhaustedError

/-- What one loop iteration does with the attempt's outcome. -/
inductive StepResult where
  | done (price : PyFloat) (cache : Cache)
  | fail (e : FetchError)
  | retry (cause : RetryCause)
deriving Repr

/-- One iteration of the `for attempt` loop body of `get_hyperliquid_price`,
including the `except` clauses, in source order: 429 check, 200 branch
(json decode, `price = data.get("price")` — note JSON `null` becomes Python
`None`, indistinguishable from an absent key — fallback, numeric and
positivity checks), 5xx retry branch, 4xx raise, unexpected-status raise;
`Timeout` and `RequestException` are the retryable except clauses. -/
def classifyAttempt (sym : String) (useFallback : Bool) (cache : Cache) :
    AttemptOutcome → StepResult
  | .timeout => .retry .timeout
  | .connectionError => .retry .connError
  | .response status retryAfter body =>
    if status = 429 then
      .fail (.rateLimited (parseRetryAfter retryAfter))
    else if status = 200 then
      match body with
      | .malformed => .fail (.invalidPayload .malformedJson)
      | .object priceField =>
        let price : PyVal := priceField.getD .vnone
        if price = .vnone then
          if useFallback then
            match cacheGet cache sym with
            | some fb => .done fb cache
            | none => .fail (.invalidPayload .missingPrice)
          else .fail (.invalidPayload .missingPrice)
        else if !isNumericPy price then
          .fail (.invalidPayload .nonNumeric)
        else if leZeroPy price then
          .fail (.invalidPayload .nonPositive)
        else
          .done (toFloatPy price) (cacheSet cache sym (toFloatPy price))
    else if 500 ≤ status ∧ status < 600 then
      .retry (.serverError status)
    else if 400 ≤ status ∧ status < 500 then
      .fail (.clientError status)
    else
      .fail (.unexpectedStatus status)

/-- The observable result of one call to `get_hyperliquid_price`: the value
returned or the exception raised, the cache afterwards, the number of HTTP
attempts issued, and the `time.sleep` delays in order. -/
structure RunResult where
  result : Except FetchError PyFloat
  cache : Cache
  attempts : ℕ
  sleeps : List ℚ
deriving Repr

/-- The attempt loop.  `n` is the 1-based value of `attempt`, `fuel` the
number of loop iterations left (`maxR - n + 1` at every call), `lastE` the
current `last_exception`.  A retryable outcome with `attempt < MAX_RETRIES`
sleeps `attempt * 0.5` and continues; on the last attempt it breaks, and
after the loop `RetryExhaustedError` is raised `from last_exception`. -/
def fetchAux (o : ℕ → AttemptOutcome) (sym : String) (fb : Bool) (maxR : ℕ)
    (cache : Cache) (n : ℕ) (lastE : Option RetryCause) : ℕ → RunResult
  | 0 => ⟨.error (.retryExhausted lastE), cache, 0, []⟩
  | fuel + 1 =>
    match classifyAttempt sym fb cache (o n) with
    | .done p c => ⟨.ok p, c, 1, []⟩
    | .fail e => ⟨.error e, cache, 1, []⟩
    | .retry cause =>
      if n < maxR then
        let r := fetchAux o sym fb maxR cache (n + 1) (some cause) fuel
        ⟨r.result, r.cache, r.attempts + 1, mkRat (n : ℤ) 2 :: r.sleeps⟩
      else
        ⟨.error (.retryExhausted (some cause)), cache, 1, []⟩

/-- `get_hyperliquid_price` with the retry budget as a parameter (the loop
is `for attempt in range(1, maxR + 1)` with `attempt < maxR` as the
retry guard). -/
def fetchWithBudget (o : ℕ → AttemptOutcome) (sym : String) (fb : Bool)
    (cache : Cache) (maxR : ℕ) : RunResult :=
  fetchAux o sym fb maxR cache 1 none maxR

/-- `get_hyperliquid_price(symbol, use_fallback)` run against the attempt
environment `o` starting from cache state `cache`. -/
def fetch (o : ℕ → AttemptOutcome) (sym : String) (fb : Bool)
    (cache : Cache) : RunResult :=
  fetchWithBudget o sym fb cache MAX_RETRIES

/-- A constant environment: every HTTP attempt gives the same outcome. -/
def constOutcome (a : AttemptOutcome) : ℕ → AttemptOutcome := fun _ => a

/-- Outcomes on which the loop body retries: timeouts, connection failures,
and 5xx responses. -/
def retryableOutcome : AttemptOutcome → Bool
  | .timeout => true
  | .connectionError => true
  | .response s _ _ => decide (500 ≤ s ∧ s < 600)

/-- The `last_exception` value a retryable outcome leaves behind. -/
def causeOf : AttemptOutcome → RetryCause
  | .timeout => .timeout
  | .connectionError => .connError
  | .response s _ _ => .serverError s

/-- A price that passed the validation gate (or can legitimately sit in the
cache): strictly positive when finite, never `-inf`; `inf` and `nan` pass
the source's `price <= 0` check, so they count as accepted here. -/
def acceptedPrice : PyFloat → Bool
  | .finite q => decide (0 < q)
  | .negInf => false
  | .inf => true
  | .nan => true

/-- Every price stored in the cache passed the validation gate. -/
def CacheOK (c : Cache) : Prop := ∀ kv ∈ c, acceptedPrice kv.2 = true

/-- The cache-independent part of a step: the value/error/retry decision,
forgetting the cache state the step leaves behind. -/
def stepShape : StepResult → Except FetchError PyFloat ⊕ RetryCause
  | .done p _ => .inl (.ok p)
  | .fail e => .inl (.error e)
  | .retry cause => .inr cause

/-- Scenario A shape from the spec: a valid positive price is returned. -/
example :
    (fetch (constOutcome (.response 200 none (.object (some (.vfloat (.finite 45000))))))
      "BTC" false []).result = .ok (.finite 45000) := by
  rfl

/-- Scenario F from the spec: status 404 raises immediately, one attempt. -/
example :
    (fetch (constOutcome (.response 404 none (.object none))) "BTC" false []).attempts
      = 1 := by
  rfl

/-! Classification lemmas: how `classifyAttempt` treats each status range. -/

theorem classify_429 (sym : String) (fb : Bool) (c : Cache) (hdr : Option String)
    (b : Body) :
    classifyAttempt sym fb c (.response 429 hdr b) =
      .fail (.rateLimited (parseRetryAfter hdr)) := rfl

theorem classify_5xx (sym : String) (fb : Bool) (c : Cache) (s : ℕ)
    (hdr : Option String) (b : Body) (h5 : 500 ≤ s) (h6 : s < 600) :
    classifyAttempt sym fb c (.response s hdr b) = .retry (.serverError s) := by
  simp only [classifyAttempt]
  rw [if_neg (by omega), if_neg (by omega), if_pos (by omega)]

theorem classify_4xx (sym : String) (fb : Bool) (c : Cache) (s : ℕ)
    (hdr : Option String) (b : Body) (h4 : 400 ≤ s) (h5 : s < 500) (h9 : s ≠ 429) :
    classifyAttempt sym fb c (.response s hdr b) = .fail (.clientError s) := by
  simp only [classifyAttempt]
  rw [if_neg (by omega), if_neg (by omega), if_neg (by omega), if_pos (by omega)]

theorem classify_other_status (sym : String) (fb : Bool) (c : Cache) (s : ℕ)
    (hdr : Option String) (b : Body) (h0 : s ≠ 200) (h9 : s ≠ 429)
    (h : ¬(400 ≤ s ∧ s < 600)) :
    classifyAttempt sym fb c (.response s hdr b) = .fail (.unexpectedStatus s) := by
  simp only [classifyAttempt]
  rw [if_neg h9, if_neg h0, if_neg (by omega), if_neg (by omega)]

theorem classify_retryable (sym : String) (fb : Bool) (c : Cache)
    (a : AttemptOutcome) (h : retryableOutcome a = true) :
    classifyAttempt sym fb c a = .retry (causeOf a) := by
  cases a with
  | timeout => rfl
  | connectionError => rfl
  | response s hdr b =>
    simp only [retryableOutcome, decide_eq_true_eq] at h
    exact classify_5xx sym fb c s hdr b h.1 h.2

/-! Generic loop lemmas. -/

theorem fetchAux_attempts_le (o : ℕ → AttemptOutcome) (sym : String) (fb : Bool)
    (maxR : ℕ) : ∀ fuel cache n lastE,
    (fetchAux o sym fb maxR cache n lastE fuel).attempts ≤ fuel := by
  intro fuel
  induction fuel with
  | zero => intro cache n lastE; simp [fetchAux]
  | succ k ih =>
    intro cache n lastE
    simp only [fetchAux]
    cases classifyAttempt sym fb cache (o n) with
    | done p c => simp
    | fail e => simp
    | retry cause =>
      by_cases hn : n < maxR
      · simp only [if_pos hn]
        have := ih cache (n + 1) (some cause)
        simpa using Nat.add_le_add_right this 1
      · simp [if_neg hn]

theorem cacheGet_mem {c : Cache} {s : String} {v : PyFloat}
    (h : cacheGet c s = some v) : (s, v) ∈ c := by
  induction c with
  | nil => simp [cacheGet] at h
  | cons kv rest ih =>
    obtain ⟨k, w⟩ := kv
    simp only [cacheGet] at h
    by_cases hk : k = s
    · rw [if_pos hk] at h
      cases h
      subst hk
      exact List.mem_cons_self _ _
    · rw [if_neg hk] at h
      exact List.mem_cons_of_mem _ (ih h)

theorem cacheGet_set_self (c : Cache) (k : String) (v : PyFloat) :
    cacheGet (cacheSet c k v) k = some v := by
  simp [cacheSet, cacheGet]

theorem cacheOK_set {c : Cache} {k : String} {v : PyFloat} (hc : CacheOK c)
    (hv : acceptedPrice v = true) : CacheOK (cacheSet c k v) := by
  intro kv hm
  simp only [cacheSet, List.mem_cons] at hm
  rcases hm with h | h
  · subst h; exact hv
  · exact hc kv (List.mem_of_mem_filter h)

/-- A validated payload price is accepted: if the `"price"` value passes the
numeric check and the `<= 0` check, `float(price)` is a strictly positive
finite value, `inf`, or `nan`. -/
theorem toFloatPy_accepted (v : PyVal) (hnum : isNumericPy v = true)
    (hpos : leZeroPy v = false) : acceptedPrice (toFloatPy v) = true := by
  cases v with
  | vbool b => cases b <;> simp_all [leZeroPy, toFloatPy, acceptedPrice]
  | vint n =>
    simp only [leZeroPy, decide_eq_false_iff_not, not_le] at hpos
    simp only [toFloatPy, acceptedPrice, decide_eq_true_eq]
    exact_mod_cast hpos
  | vfloat x =>
    cases x with
    | finite q =>
      simp only [leZeroPy, decide_eq_false_iff_not, not_le] at hpos
      simpa [toFloatPy, acceptedPrice] using hpos
    | inf => rfl
    | negInf => simp [leZeroPy] at hpos
    | nan => rfl
  | vnone => simp [isNumericPy] at hnum
  | vstr s => simp [isNumericPy] at hnum
  | vother => simp [isNumericPy] at hnum

/-- The two ways one attempt can produce a value: the fallback read on a
missing price, or a fully validated fresh price (which is also written to
the cache). -/
theorem classify_done_cases {sym : String} {fb : Bool} {c : Cache}
    {a : AttemptOutcome} {p : PyFloat} {c' : Cache}
    (h : classifyAttempt sym fb c a = .done p c') :
    (∃ hdr pf, a = .response 200 hdr (.object pf) ∧ pf.getD .vnone = .vnone ∧
      fb = true ∧ cacheGet c sym = some p ∧ c' = c) ∨
    (∃ hdr pf, a = .response 200 hdr (.object pf) ∧
      pf.getD .vnone ≠ .vnone ∧ isNumericPy (pf.getD .vnone) = true ∧
      leZeroPy (pf.getD .vnone) = false ∧ p = toFloatPy (pf.getD .vnone) ∧
      c' = cacheSet c sym p) := by
  cases a with
  | timeout => simp [classifyAttempt] at h
  | connectionError => simp [classifyAttempt] at h
  | response s hdr b =>
    simp only [classifyAttempt] at h
    by_cases h429 : s = 429
    · rw [if_pos h429] at h; cases h
    · rw [if_neg h429] at h
      by_cases h200 : s = 200
      · rw [if_pos h200] at h
        subst h200
        cases b with
        | malformed => cases h
        | object pf =>
          simp only at h
          by_cases hv : pf.getD PyVal.vnone = .vnone
          · rw [if_pos hv] at h
            cases hfb : fb with
            | false => rw [hfb] at h; simp at h
            | true =>
              rw [hfb] at h
              simp only [if_pos rfl] at h
              cases hg : cacheGet c sym with
              | none => rw [hg] at h; cases h
              | some v =>
                rw [hg] at h
                cases h
                exact Or.inl ⟨hdr, pf, rfl, hv, rfl, rfl, rfl⟩
          · rw [if_neg hv] at h
            cases hnum : isNumericPy (pf.getD PyVal.vnone) with
            | false => rw [hnum] at h; simp at h
            | true =>
              rw [hnum] at h
              simp only [Bool.not_true, Bool.false_eq_true, if_false] at h
              cases hle : leZeroPy (pf.getD PyVal.vnone) with
              | true => rw [hle] at h; simp at h
              | false =>
                rw [hle] at h
                simp only [Bool.false_eq_true, if_false] at h
                cases h
                exact Or.inr ⟨hdr, pf, rfl, hv, hnum, hle, rfl, rfl⟩
      · rw [if_neg h200] at h
        by_cases h5 : 500 ≤ s ∧ s < 600
        · rw [if_pos h5] at h; cases h
        · rw [if_neg h5] at h
          by_cases h4 : 400 ≤ s ∧ s < 500
          · rw [if_pos h4] at h; cases h
          · rw [if_neg h4] at h; cases h

theorem classify_done_accepted {sym : String} {fb : Bool} {c : Cache}
    {a : AttemptOutcome} {p : PyFloat} {c' : Cache} (hc : CacheOK c)
    (h : classifyAttempt sym fb c a = .done p c') :
    acceptedPrice p = true ∧ CacheOK c' := by
  rcases classify_done_cases h with
    ⟨hdr, pf, ha, hv, hfb, hg, hcc⟩ | ⟨hdr, pf, ha, hv, hnum, hle, hp, hcc⟩
  · subst hcc
    exact ⟨hc _ (cacheGet_mem hg), hc⟩
  · subst hp
    subst hcc
    have hacc := toFloatPy_accepted _ hnum hle
    exact ⟨hacc, cacheOK_set hc hacc⟩

theorem classify_done_cacheGet {sym : String} {fb : Bool} {c : Cache}
    {a : AttemptOutcome} {p : PyFloat} {c' : Cache}
    (h : classifyAttempt sym fb c a = .done p c') :
    cacheGet c' sym = some p := by
  rcases classify_done_cases h with
    ⟨hdr, pf, ha, hv, hfb, hg, hcc⟩ | ⟨hdr, pf, ha, hv, hnum, hle, hp, hcc⟩
  · subst hcc; exact hg
  · subst hcc; exact cacheGet_set_self c sym p

/-! Single-step unfolding lemmas for the attempt loop. -/

theorem fetchAux_done_step {o : ℕ → AttemptOutcome} {sym : String} {fb : Bool}
    {maxR : ℕ} {cache : Cache} {n : ℕ} {lastE : Option RetryCause} {fuel : ℕ}
    {p : PyFloat} {c' : Cache}
    (h : classifyAttempt sym fb cache (o n) = .done p c') :
    fetchAux o sym fb maxR cache n lastE (fuel + 1) = ⟨.ok p, c', 1, []⟩ := by
  simp only [fetchAux, h]

theorem fetchAux_fail_step {o : ℕ → AttemptOutcome} {sym : String} {fb : Bool}
    {maxR : ℕ} {cache : Cache} {n : ℕ} {lastE : Option RetryCause} {fuel : ℕ}
    {e : FetchError}
    (h : classifyAttempt sym fb cache (o n) = .fail e) :
    fetchAux o sym fb maxR cache n lastE (fuel + 1) = ⟨.error e, cache, 1, []⟩ := by
  simp only [fetchAux, h]

theorem fetchAux_retry_step {o : ℕ → AttemptOutcome} {sym : String} {fb : Bool}
    {maxR : ℕ} {cache : Cache} {n : ℕ} {lastE : Option RetryCause} {fuel : ℕ}
    {cause : RetryCause}
    (h : classifyAttempt sym fb cache (o n) = .retry cause) (hn : n < maxR) :
    fetchAux o sym fb maxR cache n lastE (fuel + 1) =
      ⟨(fetchAux o sym fb maxR cache (n + 1) (some cause) fuel).result,
       (fetchAux o sym fb maxR cache (n + 1) (some cause) fuel).cache,
       (fetchAux o sym fb maxR cache (n + 1) (some cause) fuel).attempts + 1,
       mkRat (n : ℤ) 2 ::
         (fetchAux o sym fb maxR cache (n + 1) (some cause) fuel).sleeps⟩ := by
  simp only [fetchAux, h, if_pos hn]

theorem fetchAux_retry_last {o : ℕ → AttemptOutcome} {sym : String} {fb : Bool}
    {maxR : ℕ} {cache : Cache} {n : ℕ} {lastE : Option RetryCause} {fuel : ℕ}
    {cause : RetryCause}
    (h : classifyAttempt sym fb cache (o n) = .retry cause) (hn : ¬ n < maxR) :
    fetchAux o sym fb maxR cache n lastE (fuel + 1) =
      ⟨.error (.retryExhausted (some cause)), cache, 1, []⟩ := by
  simp only [fetchAux, h, if_neg hn]

/-- A run that returns a value only returns accepted prices, and leaves the
cache populated with accepted prices. -/
theorem fetchAux_invariant (o : ℕ → AttemptOutcome) (sym : String) (fb : Bool)
    (maxR : ℕ) : ∀ fuel cache n lastE, CacheOK cache →
    CacheOK (fetchAux o sym fb maxR cache n lastE fuel).cache ∧
    ∀ p, (fetchAux o sym fb maxR cache n lastE fuel).result = .ok p →
      acceptedPrice p = true := by
  intro fuel
  induction fuel with
  | zero =>
    intro cache n lastE hc
    exact ⟨hc, by simp [fetchAux]⟩
  | succ k ih =>
    intro cache n lastE hc
    cases hcl : classifyAttempt sym fb cache (o n) with
    | done p c' =>
      rw [fetchAux_done_step hcl]
      obtain ⟨hacc, hc'⟩ := classify_done_accepted hc hcl
      refine ⟨hc', ?_⟩
      intro q hq
      cases hq
      exact hacc
    | fail e =>
      rw [fetchAux_fail_step hcl]
      exact ⟨hc, by intro q hq; cases hq⟩
    | retry cause =>
      by_cases hn : n < maxR
      · rw [fetchAux_retry_step hcl hn]
        have h2 := ih cache (n + 1) (some cause) hc
        exact ⟨h2.1, fun p hp => h2.2 p hp⟩
      · rw [fetchAux_retry_last hcl hn]
        exact ⟨hc, by intro q hq; cases hq⟩

/-- A run that returns a value leaves the returned price readable from the
cache under the requested symbol, whether it came from the fallback read or
from a fresh validated response. -/
theorem fetchAux_ok_cacheGet (o : ℕ → AttemptOutcome) (sym : String) (fb : Bool)
    (maxR : ℕ) : ∀ fuel cache n lastE p,
    (fetchAux o sym fb maxR cache n lastE fuel).result = .ok p →
    cacheGet (fetchAux o sym fb maxR cache n lastE fuel).cache sym = some p := by
  intro fuel
  induction fuel with
  | zero => intro cache n lastE p hp; cases hp
  | succ k ih =>
    intro cache n lastE p hp
    cases hcl : classifyAttempt sym fb cache (o n) with
    | done q c' =>
      rw [fetchAux_done_step hcl] at hp ⊢
      cases hp
      exact classify_done_cacheGet hcl
    | fail e =>
      rw [fetchAux_fail_step hcl] at hp
      cases hp
    | retry cause =>
      by_cases hn : n < maxR
      · rw [fetchAux_retry_step hcl hn] at hp ⊢
        exact ih cache (n + 1) (some cause) p hp
      · rw [fetchAux_retry_last hcl hn] at hp
        cases hp

/-- With `use_fallback = False` the classification decision never reads the
cache: the branch guarded by `use_fallback and symbol in _last_known_prices`
is dead, and the success branch only writes. -/
theorem classify_shape_nofb (sym : String) (a : AttemptOutcome) (c1 c2 : Cache) :
    stepShape (classifyAttempt sym false c1 a) =
    stepShape (classifyAttempt sym false c2 a) := by
  cases a with
  | timeout => rfl
  | connectionError => rfl
  | response s hdr b =>
    simp only [classifyAttempt]
    by_cases h429 : s = 429
    · simp only [if_pos h429]
    · simp only [if_neg h429]
      by_cases h200 : s = 200
      · simp only [if_pos h200]
        cases b with
        | malformed => rfl
        | object pf =>
          by_cases hv : pf.getD PyVal.vnone = .vnone
          · simp only [if_pos hv]
            rfl
          · simp only [if_neg hv]
            cases hnum : isNumericPy (pf.getD PyVal.vnone) with
            | false => rfl
            | true =>
              cases hle : leZeroPy (pf.getD PyVal.vnone) with
              | true => rfl
              | false => rfl
      · simp only [if_neg h200]

/-- Result noninterference: with fallback disabled, two runs over the same
attempt outcomes agree on the returned price or raised error, whatever the
prior cache contents. -/
theorem fetchAux_result_nofb (o : ℕ → AttemptOutcome) (sym : String)
    (maxR : ℕ) : ∀ fuel c1 c2 n lastE,
    (fetchAux o sym false maxR c1 n lastE fuel).result =
    (fetchAux o sym false maxR c2 n lastE fuel).result := by
  intro fuel
  induction fuel with
  | zero => intro c1 c2 n lastE; rfl
  | succ k ih =>
    intro c1 c2 n lastE
    have hsh := classify_shape_nofb sym (o n) c1 c2
    cases h1 : classifyAttempt sym false c1 (o n) with
    | done p c' =>
      cases h2 : classifyAttempt sym false c2 (o n) with
      | done q c'' =>
        rw [h1, h2] at hsh
        simp only [stepShape, Sum.inl.injEq, Except.ok.injEq] at hsh
        subst hsh
        rw [fetchAux_done_step h1, fetchAux_done_step h2]
      | fail e => rw [h1, h2] at hsh; simp [stepShape] at hsh
      | retry cause => rw [h1, h2] at hsh; simp [stepShape] at hsh
    | fail e =>
      cases h2 : classifyAttempt sym false c2 (o n) with
      | done q c'' => rw [h1, h2] at hsh; simp [stepShape] at hsh
      | fail e' =>
        rw [h1, h2] at hsh
        simp only [stepShape, Sum.inl.injEq, Except.error.injEq] at hsh
        subst hsh
        rw [fetchAux_fail_step h1, fetchAux_fail_step h2]
      | retry cause => rw [h1, h2] at hsh; simp [stepShape] at hsh
    | retry cause =>
      cases h2 : classifyAttempt sym false c2 (o n) with
      | done q c'' => rw [h1, h2] at hsh; simp [stepShape] at hsh
      | fail e' => rw [h1, h2] at hsh; simp [stepShape] at hsh
      | retry cause' =>
        rw [h1, h2] at hsh
        simp only [stepShape, Sum.inr.injEq] at hsh
        subst hsh
        by_cases hn : n < maxR
        · rw [fetchAux_retry_step h1 hn, fetchAux_retry_step h2 hn]
          exact ih c1 c2 (n + 1) (some cause)
        · rw [fetchAux_retry_last h1 hn, fetchAux_retry_last h2 hn]

/-! Classification of the 200 branch, case by case. -/

theorem classify_200_malformed (sym : String) (fb : Bool) (c : Cache)
    (hdr : Option String) :
    classifyAttempt sym fb c (.response 200 hdr .malformed) =
      .fail (.invalidPayload .malformedJson) := rfl

theorem classify_200_success (sym : String) (fb : Bool) (c : Cache)
    (hdr : Option String) (v : PyVal) (hnum : isNumericPy v = true)
    (hle : leZeroPy v = false) :
    classifyAttempt sym fb c (.response 200 hdr (.object (some v))) =
      .done (toFloatPy v) (cacheSet c sym (toFloatPy v)) := by
  have hv : v ≠ PyVal.vnone := by
    intro h; rw [h] at hnum; simp [isNumericPy] at hnum
  simp [classifyAttempt, hv, hnum, hle]

theorem classify_200_nonpositive (sym : String) (fb : Bool) (c : Cache)
    (hdr : Option String) (v : PyVal) (hnum : isNumericPy v = true)
    (hle : leZeroPy v = true) :
    classifyAttempt sym fb c (.response 200 hdr (.object (some v))) =
      .fail (.invalidPayload .nonPositive) := by
  have hv : v ≠ PyVal.vnone := by
    intro h; rw [h] at hnum; simp [isNumericPy] at hnum
  simp [classifyAttempt, hv, hnum, hle]

theorem classify_200_nonnumeric (sym : String) (fb : Bool) (c : Cache)
    (hdr : Option String) (v : PyVal) (hv : v ≠ PyVal.vnone)
    (hnum : isNumericPy v = false) :
    classifyAttempt sym fb c (.response 200 hdr (.object (some v))) =
      .fail (.invalidPayload .nonNumeric) := by
  simp [classifyAttempt, hv, hnum]

theorem classify_200_missing_nofb (sym : String) (c : Cache)
    (hdr : Option String) (pf : Option PyVal) (hv : pf.getD .vnone = .vnone) :
    classifyAttempt sym false c (.response 200 hdr (.object pf)) =
      .fail (.invalidPayload .missingPrice) := by
  simp [classifyAttempt, hv]

theorem classify_200_missing_fb_hit (sym : String) (c : Cache)
    (hdr : Option String) (pf : Option PyVal) (p : PyFloat)
    (hv : pf.getD .vnone = .vnone) (hg : cacheGet c sym = some p) :
    classifyAttempt sym true c (.response 200 hdr (.object pf)) = .done p c := by
  simp [classifyAttempt, hv, hg]

theorem classify_200_missing_fb_miss (sym : String) (c : Cache)
    (hdr : Option String) (pf : Option PyVal)
    (hv : pf.getD .vnone = .vnone) (hg : cacheGet c sym = none) :
    classifyAttempt sym true c (.response 200 hdr (.object pf)) =
      .fail (.invalidPayload .missingPrice) := by
  simp [classifyAttempt, hv, hg]

/-- The 200 branch never raises the unexpected-status error. -/
theorem classify_200_ne_unexpected (sym : String) (fb : Bool) (c : Cache)
    (hdr : Option String) (b : Body) (t : ℕ) :
    classifyAttempt sym fb c (.response 200 hdr b) ≠ .fail (.unexpectedStatus t) := by
  cases b with
  | malformed => rw [classify_200_malformed]; intro h; cases h
  | object pf =>
    by_cases hv : pf.getD PyVal.vnone = .vnone
    · cases fb with
      | false => rw [classify_200_missing_nofb sym c hdr pf hv]; intro h; cases h
      | true =>
        cases hg : cacheGet c sym with
        | none =>
          rw [classify_200_missing_fb_miss sym c hdr pf hv hg]; intro h; cases h
        | some p =>
          rw [classify_200_missing_fb_hit sym c hdr pf p hv hg]; intro h; cases h
    · cases hpf : pf with
      | none => rw [hpf] at hv; simp at hv
      | some v =>
        rw [hpf] at hv
        simp only [Option.getD_some] at hv
        cases hnum : isNumericPy v with
        | false =>
          rw [classify_200_nonnumeric sym fb c hdr v hv hnum]; intro h; cases h
        | true =>
          cases hle : leZeroPy v with
          | false =>
            rw [classify_200_success sym fb c hdr v hnum hle]; intro h; cases h
          | true =>
            rw [classify_200_nonpositive sym fb c hdr v hnum hle]; intro h; cases h

/-- Three retryable attempts in a row exhaust the budget: three HTTP calls,
sleeps of 0.5 and 1.0, and `RetryExhaustedError` carrying the cause left by
the third attempt. -/
theorem fetch_retry3 (o : ℕ → AttemptOutcome) (sym : String) (fb : Bool)
    (c : Cache) (cause1 cause2 cause3 : RetryCause)
    (hc1 : classifyAttempt sym fb c (o 1) = .retry cause1)
    (hc2 : classifyAttempt sym fb c (o 2) = .retry cause2)
    (hc3 : classifyAttempt sym fb c (o 3) = .retry cause3) :
    fetch o sym fb c =
      ⟨.error (.retryExhausted (some cause3)), c, 3, [mkRat 1 2, 1]⟩ := by
  have e3 : fetchAux o sym fb 3 c 3 (some cause2) 1 =
      ⟨.error (.retryExhausted (some cause3)), c, 1, []⟩ :=
    fetchAux_retry_last hc3 (by omega)
  have e2 : fetchAux o sym fb 3 c 2 (some cause1) 2 =
      ⟨.error (.retryExhausted (some cause3)), c, 2, [1]⟩ := by
    have h : fetchAux o sym fb 3 c 2 (some cause1) 2 = _ :=
      fetchAux_retry_step hc2 (by omega)
    rw [h, e3]
    rfl
  have e1 : fetchAux o sym fb 3 c 1 none 3 =
      ⟨.error (.retryExhausted (some cause3)), c, 3, [mkRat 1 2, 1]⟩ := by
    have h : fetchAux o sym fb 3 c 1 none 3 = _ :=
      fetchAux_retry_step hc1 (by omega)
    rw [h, e2]
    rfl
  exact e1

/-! The claims. -/

/-- C2: for every status code in 500..599 returned on all attempts,
`get_hyperliquid_price` makes exactly MAX_RETRIES = 3 HTTP attempts with
exactly 2 backoff sleeps of 0.5 then 1.0 time-units between them, then
raises `RetryExhaustedError` carrying the last observed retryable cause
(the server error seen on the third attempt). -/
theorem c2_server_errors_exhaust_budget (o : ℕ → AttemptOutcome) (sym : String)
    (fb : Bool) (c : Cache) (s1 s2 s3 : ℕ) (d1 d2 d3 : Option String)
    (b1 b2 b3 : Body)
    (h1 : o 1 = .response s1 d1 b1) (h2 : o 2 = .response s2 d2 b2)
    (h3 : o 3 = .response s3 d3 b3)
    (hs1 : 500 ≤ s1 ∧ s1 < 600) (hs2 : 500 ≤ s2 ∧ s2 < 600)
    (hs3 : 500 ≤ s3 ∧ s3 < 600) :
    (fetch o sym fb c).result =
      .error (.retryExhausted (some (.serverError s3))) ∧
    (fetch o sym fb c).attempts = 3 ∧
    (fetch o sym fb c).sleeps = [mkRat 1 2, 1] := by
  have hc1 : classifyAttempt sym fb c (o 1) = .retry (.serverError s1) := by
    rw [h1]; exact classify_5xx sym fb c s1 d1 b1 hs1.1 hs1.2
  have hc2 : classifyAttempt sym fb c (o 2) = .retry (.serverError s2) := by
    rw [h2]; exact classify_5xx sym fb c s2 d2 b2 hs2.1 hs2.2
  have hc3 : classifyAttempt sym fb c (o 3) = .retry (.serverError s3) := by
    rw [h3]; exact classify_5xx sym fb c s3 d3 b3 hs3.1 hs3.2
  rw [fetch_retry3 o sym fb c _ _ _ hc1 hc2 hc3]
  exact ⟨rfl, rfl, rfl⟩

/-- Witness for C2: status 503 on all three attempts. -/
theorem c2_server_errors_exhaust_budget_witness :
    (fetch (constOutcome (.response 503 none (.object none))) "BTC" false []).result =
      .error (.retryExhausted (some (.serverError 503))) ∧
    (fetch (constOutcome (.response 503 none (.object none))) "BTC" false []).attempts = 3 ∧
    (fetch (constOutcome (.response 503 none (.object none))) "BTC" false []).sleeps =
      [mkRat 1 2, 1] :=
  c2_server_errors_exhaust_budget (constOutcome (.response 503 none (.object none)))
    "BTC" false [] 503 503 503 none none none (.object none) (.object none)
    (.object none) rfl rfl rfl (by omega) (by omega) (by omega)

/-- C3: a 429 response on the first attempt raises `RateLimitError` with
exactly one HTTP attempt, for every retry budget of at least one attempt;
the error carries the `Retry-After` value when the header is present and a
valid non-negative integer, and no value otherwise. -/
theorem c3_rate_limited_first_attempt (o : ℕ → AttemptOutcome) (sym : String)
    (fb : Bool) (c : Cache) (maxR : ℕ) (hm : 1 ≤ maxR) (hdr : Option String)
    (b : Body) (h1 : o 1 = .response 429 hdr b) :
    (fetchWithBudget o sym fb c maxR).result =
      .error (.rateLimited (parseRetryAfter hdr)) ∧
    (fetchWithBudget o sym fb c maxR).attempts = 1 ∧
    (∀ s, hdr = some s → isDigitStr s = true →
      parseRetryAfter hdr = some (strToNat s)) ∧
    (∀ s, hdr = some s → isDigitStr s = false → parseRetryAfter hdr = none) ∧
    (hdr = none → parseRetryAfter hdr = none) := by
  obtain ⟨k, rfl⟩ : ∃ k, maxR = k + 1 := ⟨maxR - 1, by omega⟩
  have hc : classifyAttempt sym fb c (o 1) =
      .fail (.rateLimited (parseRetryAfter hdr)) := by
    rw [h1]; exact classify_429 sym fb c hdr b
  have E : fetchWithBudget o sym fb c (k + 1) =
      ⟨.error (.rateLimited (parseRetryAfter hdr)), c, 1, []⟩ :=
    fetchAux_fail_step hc
  refine ⟨by rw [E], by rw [E], ?_, ?_, ?_⟩
  · intro s hs hd; rw [hs]; simp [parseRetryAfter, hd]
  · intro s hs hd; rw [hs]; simp [parseRetryAfter, hd]
  · intro hs; rw [hs]; rfl

/-- Witness for C3: Scenario C, `Retry-After: 30`, budget 5. -/
theorem c3_rate_limited_first_attempt_witness :
    (fetchWithBudget (constOutcome (.response 429 (some "30") (.object none)))
      "BTC" false [] 5).result = .error (.rateLimited (some 30)) ∧
    (fetchWithBudget (constOutcome (.response 429 (some "30") (.object none)))
      "BTC" false [] 5).attempts = 1 := by
  have h := c3_rate_limited_first_attempt
    (constOutcome (.response 429 (some "30") (.object none))) "BTC" false [] 5
    (by omega) (some "30") (.object none) rfl
  refine ⟨?_, h.2.1⟩
  rw [h.1]
  rfl

/-- C8: every 4xx status other than 429 on the first attempt fails
immediately with the client-error raise: exactly one HTTP attempt and no
backoff sleeps. -/
theorem c8_client_error_fail_fast (o : ℕ → AttemptOutcome) (sym : String)
    (fb : Bool) (c : Cache) (s : ℕ) (d : Option String) (b : Body)
    (h4 : 400 ≤ s) (h5 : s < 500) (h9 : s ≠ 429)
    (h1 : o 1 = .response s d b) :
    (fetch o sym fb c).result = .error (.clientError s) ∧
    (fetch o sym fb c).attempts = 1 ∧
    (fetch o sym fb c).sleeps = [] := by
  have hc : classifyAttempt sym fb c (o 1) = .fail (.clientError s) := by
    rw [h1]; exact classify_4xx sym fb c s d b h4 h5 h9
  have E : fetch o sym fb c = ⟨.error (.clientError s), c, 1, []⟩ := by
    show fetchAux o sym fb 3 c 1 none 3 = _
    exact fetchAux_fail_step hc
  exact ⟨by rw [E], by rw [E], by rw [E]⟩

/-- Witness for C8: Scenario F, status 404. -/
theorem c8_client_error_fail_fast_witness :
    (fetch (constOutcome (.response 404 none (.object none))) "BTC" false []).result =
      .error (.clientError 404) ∧
    (fetch (constOutcome (.response 404 none (.object none))) "BTC" false []).attempts = 1 :=
  ⟨(c8_client_error_fail_fast (constOutcome (.response 404 none (.object none)))
      "BTC" false [] 404 none (.object none) (by omega) (by omega) (by omega) rfl).1,
   (c8_client_error_fail_fast (constOutcome (.response 404 none (.object none)))
      "BTC" false [] 404 none (.object none) (by omega) (by omega) (by omega) rfl).2.1⟩

/-- C9: every run terminates with at most MAX_RETRIES = 3 HTTP attempts,
and if every one of the first three attempt outcomes is retryable — any
mixture of timeouts, connection failures and 5xx statuses — the run raises
`RetryExhaustedError` after exactly 3 attempts, carrying the cause left by
the third attempt (exhaustion does not require the same kind each time). -/
theorem c9_mixed_retryable_exhaustion (o : ℕ → AttemptOutcome) (sym : String)
    (fb : Bool) (c : Cache) :
    (fetch o sym fb c).attempts ≤ 3 ∧
    ((∀ i, 1 ≤ i → i ≤ 3 → retryableOutcome (o i) = true) →
      (fetch o sym fb c).result =
        .error (.retryExhausted (some (causeOf (o 3)))) ∧
      (fetch o sym fb c).attempts = 3) := by
  constructor
  · exact fetchAux_attempts_le o sym fb 3 3 c 1 none
  · intro h
    have hc1 := classify_retryable sym fb c (o 1) (h 1 (by omega) (by omega))
    have hc2 := classify_retryable sym fb c (o 2) (h 2 (by omega) (by omega))
    have hc3 := classify_retryable sym fb c (o 3) (h 3 (by omega) (by omega))
    rw [fetch_retry3 o sym fb c _ _ _ hc1 hc2 hc3]
    exact ⟨rfl, rfl⟩

/-- Witness for C9: timeout, then connection failure, then a 500. -/
theorem c9_mixed_retryable_exhaustion_witness :
    (fetch (fun i => if i = 1 then .timeout else if i = 2 then .connectionError
        else .response 500 none (.object none)) "BTC" false []).result =
      .error (.retryExhausted (some (.serverError 500))) := by
  have h := (c9_mixed_retryable_exhaustion
    (fun i => if i = 1 then .timeout else if i = 2 then .connectionError
      else .response 500 none (.object none)) "BTC" false []).2
    (by intro i h1 h2; interval_cases i <;> rfl)
  exact h.1

/-- C10: with `use_fallback = False`, the result (returned price or raised
error) of a run over a given sequence of attempt outcomes is the same
whatever the prior contents of the price cache. -/
theorem c10_cache_noninterference (o : ℕ → AttemptOutcome) (sym : String)
    (c1 c2 : Cache) :
    (fetch o sym false c1).result = (fetch o sym false c2).result :=
  fetchAux_result_nofb o sym 3 3 c1 c2 1 none

/-- C4 counterexample: a price field that is present but holds JSON `null`
— a non-numeric value — is substituted from the fallback cache instead of
failing with `InvalidPriceDataError`: `data.get` cannot distinguish a null
price from an absent one, so this non-numeric variant IS fallback-eligible. -/
theorem c4_counterexample :
    (fetch (constOutcome (.response 200 none (.object (some .vnone)))) "BTC"
      true [("BTC", .finite 50000)]).result = .ok (.finite 50000) ∧
    isNumericPy .vnone = false := ⟨rfl, rfl⟩

/-- C4 (amended): for a 200 object payload on the first attempt: a numeric
price passing the positivity check succeeds with `float(p)`; a numeric
price failing it raises the non-positive `InvalidPriceDataError`; a
present, non-null, non-numeric price raises the non-numeric error whatever
the fallback flag and cache; an absent price — or a present null price,
which the source cannot distinguish from absent — raises the missing-price
error unless fallback is enabled and the cache holds the symbol, in which
case the cached price is returned. -/
theorem c4_payload_classification (o : ℕ → AttemptOutcome) (sym : String)
    (fb : Bool) (c : Cache) (hdr : Option String) (pf : Option PyVal)
    (h1 : o 1 = .response 200 hdr (.object pf)) :
    (∀ v, pf = some v → isNumericPy v = true → leZeroPy v = false →
      (fetch o sym fb c).result = .ok (toFloatPy v) ∧
      (fetch o sym fb c).attempts = 1) ∧
    (∀ v, pf = some v → isNumericPy v = true → leZeroPy v = true →
      (fetch o sym fb c).result = .error (.invalidPayload .nonPositive)) ∧
    (∀ v, pf = some v → v ≠ .vnone → isNumericPy v = false →
      (fetch o sym fb c).result = .error (.invalidPayload .nonNumeric)) ∧
    (pf.getD .vnone = .vnone →
      ((fb = false ∨ cacheGet c sym = none) →
        (fetch o sym fb c).result = .error (.invalidPayload .missingPrice)) ∧
      (fb = true → ∀ p, cacheGet c sym = some p →
        (fetch o sym fb c).result = .ok p)) := by
  refine ⟨?_, ?_, ?_, ?_⟩
  · intro v hv hnum hle
    subst hv
    have hcl : classifyAttempt sym fb c (o 1) =
        .done (toFloatPy v) (cacheSet c sym (toFloatPy v)) := by
      rw [h1]; exact classify_200_success sym fb c hdr v hnum hle
    have E : fetch o sym fb c =
        ⟨.ok (toFloatPy v), cacheSet c sym (toFloatPy v), 1, []⟩ := by
      show fetchAux o sym fb 3 c 1 none 3 = _
      exact fetchAux_done_step hcl
    exact ⟨by rw [E], by rw [E]⟩
  · intro v hv hnum hle
    subst hv
    have hcl : classifyAttempt sym fb c (o 1) =
        .fail (.invalidPayload .nonPositive) := by
      rw [h1]; exact classify_200_nonpositive sym fb c hdr v hnum hle
    have E : fetch o sym fb c =
        ⟨.error (.invalidPayload .nonPositive), c, 1, []⟩ := by
      show fetchAux o sym fb 3 c 1 none 3 = _
      exact fetchAux_fail_step hcl
    rw [E]
  · intro v hv hne hnum
    subst hv
    have hcl : classifyAttempt sym fb c (o 1) =
        .fail (.invalidPayload .nonNumeric) := by
      rw [h1]; exact classify_200_nonnumeric sym fb c hdr v hne hnum
    have E : fetch o sym fb c =
        ⟨.error (.invalidPayload .nonNumeric), c, 1, []⟩ := by
      show fetchAux o sym fb 3 c 1 none 3 = _
      exact fetchAux_fail_step hcl
    rw [E]
  · intro hv
    constructor
    · intro hmiss
      have hcl : classifyAttempt sym fb c (o 1) =
          .fail (.invalidPayload .missingPrice) := by
        rw [h1]
        rcases hmiss with hfb | hg
        · subst hfb; exact classify_200_missing_nofb sym c hdr pf hv
        · cases fb with
          | false => exact classify_200_missing_nofb sym c hdr pf hv
          | true => exact classify_200_missing_fb_miss sym c hdr pf hv hg
      have E : fetch o sym fb c =
          ⟨.error (.invalidPayload .missingPrice), c, 1, []⟩ := by
        show fetchAux o sym fb 3 c 1 none 3 = _
        exact fetchAux_fail_step hcl
      rw [E]
    · intro hfb p hg
      subst hfb
      have hcl : classifyAttempt sym true c (o 1) = .done p c := by
        rw [h1]; exact classify_200_missing_fb_hit sym c hdr pf p hv hg
      have E : fetch o sym true c = ⟨.ok p, c, 1, []⟩ := by
        show fetchAux o sym true 3 c 1 none 3 = _
        exact fetchAux_done_step hcl
      rw [E]

/-- Witness for C4 (amended): a positive integer price 7 succeeds with 7.0. -/
theorem c4_payload_classification_witness :
    (fetch (constOutcome (.response 200 none (.object (some (.vint 7)))))
      "BTC" false []).result = .ok (.finite 7) :=
  ((c4_payload_classification
      (constOutcome (.response 200 none (.object (some (.vint 7)))))
      "BTC" false [] none (some (.vint 7)) rfl).1 (.vint 7) rfl rfl rfl).1

/-- C5: after a run for symbol S that returns price P, a second run with
fallback enabled whose response is a 200 with a missing price field
returns exactly P; whereas from a cache with no entry for S the same
missing-price response raises the missing-price `InvalidPriceDataError`. -/
theorem c5_fallback_roundtrip (o1 o2 : ℕ → AttemptOutcome) (S : String)
    (fb1 : Bool) (c0 : Cache) (P : PyFloat) (hdr : Option String)
    (h1 : (fetch o1 S fb1 c0).result = .ok P)
    (h2 : o2 1 = .response 200 hdr (.object none)) :
    (fetch o2 S true (fetch o1 S fb1 c0).cache).result = .ok P ∧
    (∀ c : Cache, cacheGet c S = none →
      (fetch o2 S true c).result = .error (.invalidPayload .missingPrice)) := by
  constructor
  · have hg : cacheGet (fetch o1 S fb1 c0).cache S = some P :=
      fetchAux_ok_cacheGet o1 S fb1 3 3 c0 1 none P h1
    have hcl : classifyAttempt S true (fetch o1 S fb1 c0).cache (o2 1) =
        .done P (fetch o1 S fb1 c0).cache := by
      rw [h2]
      exact classify_200_missing_fb_hit S (fetch o1 S fb1 c0).cache hdr none P rfl hg
    have E : fetch o2 S true (fetch o1 S fb1 c0).cache =
        ⟨.ok P, (fetch o1 S fb1 c0).cache, 1, []⟩ := by
      show fetchAux o2 S true 3 (fetch o1 S fb1 c0).cache 1 none 3 = _
      exact fetchAux_done_step hcl
    rw [E]
  · intro c hnone
    have hcl : classifyAttempt S true c (o2 1) =
        .fail (.invalidPayload .missingPrice) := by
      rw [h2]; exact classify_200_missing_fb_miss S c hdr none rfl hnone
    have E : fetch o2 S true c =
        ⟨.error (.invalidPayload .missingPrice), c, 1, []⟩ := by
      show fetchAux o2 S true 3 c 1 none 3 = _
      exact fetchAux_fail_step hcl
    rw [E]

/-- Witness for C5: Scenario E — price 50000, then a missing-price 200
with fallback, returns 50000. -/
theorem c5_fallback_roundtrip_witness :
    (fetch (constOutcome (.response 200 none (.object none))) "BTC" true
      (fetch (constOutcome
        (.response 200 none (.object (some (.vfloat (.finite 50000))))))
        "BTC" true []).cache).result = .ok (.finite 50000) :=
  (c5_fallback_roundtrip
    (constOutcome (.response 200 none (.object (some (.vfloat (.finite 50000))))))
    (constOutcome (.response 200 none (.object none))) "BTC" true []
    (.finite 50000) none rfl rfl).1

/-- C1 counterexample: a 200 payload whose price is the JSON token
`Infinity` (which Python's json module parses to `float(inf)`) passes the
numeric check and the `<= 0` check and is returned — the returned price is
not finite, so the finiteness invariant is not enforced at the
classification boundary. -/
theorem c1_counterexample :
    (fetch (constOutcome (.response 200 none (.object (some (.vfloat .inf)))))
      "BTC" false []).result = .ok .inf ∧
    PyFloat.finiteVal .inf = false := ⟨rfl, rfl⟩

/-- C1 (amended): every returned price — fresh or from the fallback cache,
the cache holding only prices that passed the validation gate — is numeric
and not `<= 0` under IEEE comparison: a strictly positive finite value,
`+inf`, or `nan`.  Non-positive finite values and `-inf` can never be
returned, but finiteness itself is not enforced: `+inf` and `nan` pass the
gate.  Runs also preserve the cache invariant. -/
theorem c1_returned_price_accepted (o : ℕ → AttemptOutcome) (sym : String)
    (fb : Bool) (c : Cache) (hc : CacheOK c) :
    CacheOK (fetch o sym fb c).cache ∧
    ∀ p, (fetch o sym fb c).result = .ok p → acceptedPrice p = true :=
  fetchAux_invariant o sym fb 3 3 c 1 none hc

/-- Witness for C1 (amended): from the empty cache, a fetched price 7 is
accepted. -/
theorem c1_returned_price_accepted_witness :
    CacheOK ([] : Cache) ∧ acceptedPrice (.finite 7) = true := by
  have hc : CacheOK ([] : Cache) := by intro kv h; cases h
  refine ⟨hc, ?_⟩
  exact (c1_returned_price_accepted
    (constOutcome (.response 200 none (.object (some (.vint 7)))))
    "BTC" false [] hc).2 (.finite 7) rfl

/-- C6 counterexample: statuses 201 (a 2xx other than 200) and 302 (a 3xx)
both make the fetch fail with the unexpected-status raise, contradicting
the claim that 2xx/3xx statuses never trigger it. -/
theorem c6_counterexample :
    (fetch (constOutcome (.response 201 none (.object none))) "BTC" false []).result =
      .error (.unexpectedStatus 201) ∧
    (fetch (constOutcome (.response 302 none (.object none))) "BTC" false []).result =
      .error (.unexpectedStatus 302) := ⟨rfl, rfl⟩

/-- C6 (amended): the unexpected-status raise triggers exactly on statuses
not handled by any other rule of the source: everything other than 200 and
429 that is outside 400..599 — which includes 201..299 and all of
300..399 as well as statuses below 200 or at 600 and above.  Such a status
on the first attempt fails the fetch with it after exactly one attempt. -/
theorem c6_unexpected_status_range (sym : String) (fb : Bool) (c : Cache)
    (s : ℕ) (hdr : Option String) (b : Body) :
    (classifyAttempt sym fb c (.response s hdr b) =
        .fail (.unexpectedStatus s) ↔
      s ≠ 200 ∧ s ≠ 429 ∧ ¬(400 ≤ s ∧ s < 600)) ∧
    (∀ (o : ℕ → AttemptOutcome) (c2 : Cache), o 1 = .response s hdr b →
      s ≠ 200 → s ≠ 429 → ¬(400 ≤ s ∧ s < 600) →
      (fetch o sym fb c2).result = .error (.unexpectedStatus s) ∧
      (fetch o sym fb c2).attempts = 1) := by
  constructor
  · constructor
    · intro h
      have h200 : s ≠ 200 := by
        intro e
        subst e
        exact classify_200_ne_unexpected sym fb c hdr b 200 h
      have h429 : s ≠ 429 := by
        intro e
        subst e
        rw [classify_429] at h
        cases h
      refine ⟨h200, h429, fun h46 => ?_⟩
      by_cases h45 : s < 500
      · rw [classify_4xx sym fb c s hdr b h46.1 h45 h429] at h; cases h
      · rw [classify_5xx sym fb c s hdr b (by omega) h46.2] at h; cases h
    · rintro ⟨h200, h429, hr⟩
      exact classify_other_status sym fb c s hdr b h200 h429 hr
  · intro o c2 h1 h200 h429 hr
    have hcl : classifyAttempt sym fb c2 (o 1) = .fail (.unexpectedStatus s) := by
      rw [h1]; exact classify_other_status sym fb c2 s hdr b h200 h429 hr
    have E : fetch o sym fb c2 = ⟨.error (.unexpectedStatus s), c2, 1, []⟩ := by
      show fetchAux o sym fb 3 c2 1 none 3 = _
      exact fetchAux_fail_step hcl
    exact ⟨by rw [E], by rw [E]⟩

/-- Witness for C6 (amended): status 204 triggers the unexpected-status
raise on the first attempt. -/
theorem c6_unexpected_status_range_witness :
    (fetch (constOutcome (.response 204 none (.object none))) "ETH" false []).result =
      .error (.unexpectedStatus 204) :=
  ((c6_unexpected_status_range "ETH" false [] 204 none (.object none)).2
    (constOutcome (.response 204 none (.object none))) [] rfl (by omega)
    (by omega) (by omega)).1

/-- C7 counterexample: a 404 (client error) and a 201 (unexpected status)
are raised as the same exception class — the bare `HyperLiquidAPIError` —
so these two dispositions are not distinguishable by error kind, only by
message text. -/
theorem c7_counterexample :
    (fetch (constOutcome (.response 404 none (.object none))) "BTC" false []).result =
      .error (.clientError 404) ∧
    (fetch (constOutcome (.response 201 none (.object none))) "BTC" false []).result =
      .error (.unexpectedStatus 201) ∧
    pyClassOf (.clientError 404) = pyClassOf (.unexpectedStatus 201) :=
  ⟨rfl, rfl, rfl⟩

/-- C7 (amended): `RateLimitError`, `InvalidPriceDataError` and
`RetryExhaustedError` are pairwise distinct exception classes and distinct
from the bare `HyperLiquidAPIError` used for client errors; but client
errors and unexpected statuses share that one base class, distinguishable
only by message text.  Every first-attempt terminal failure disposition is
surfaced to the caller as its error; the one local recovery is a missing
price under enabled fallback with a cache hit, which returns the cached
price instead. -/
theorem c7_error_kind_distinction :
    (∀ ra r, pyClassOf (.rateLimited ra) ≠ pyClassOf (.invalidPayload r)) ∧
    (∀ ra z, pyClassOf (.rateLimited ra) ≠ pyClassOf (.retryExhausted z)) ∧
    (∀ r z, pyClassOf (.invalidPayload r) ≠ pyClassOf (.retryExhausted z)) ∧
    (∀ ra s, pyClassOf (.rateLimited ra) ≠ pyClassOf (.clientError s)) ∧
    (∀ r s, pyClassOf (.invalidPayload r) ≠ pyClassOf (.clientError s)) ∧
    (∀ z s, pyClassOf (.retryExhausted z) ≠ pyClassOf (.clientError s)) ∧
    (∀ s t, pyClassOf (.clientError s) = pyClassOf (.unexpectedStatus t)) ∧
    (∀ (o : ℕ → AttemptOutcome) (sym : String) (fb : Bool) (c : Cache)
      (e : FetchError), classifyAttempt sym fb c (o 1) = .fail e →
      (fetch o sym fb c).result = .error e) ∧
    (∀ (o : ℕ → AttemptOutcome) (sym : String) (c : Cache)
      (hdr : Option String) (pf : Option PyVal) (p : PyFloat),
      o 1 = .response 200 hdr (.object pf) → pf.getD .vnone = .vnone →
      cacheGet c sym = some p → (fetch o sym true c).result = .ok p) := by
  refine ⟨fun ra r => by simp [pyClassOf], fun ra z => by simp [pyClassOf],
    fun r z => by simp [pyClassOf], fun ra s => by simp [pyClassOf],
    fun r s => by simp [pyClassOf], fun z s => by simp [pyClassOf],
    fun s t => rfl, ?_, ?_⟩
  · intro o sym fb c e hcl
    have E : fetch o sym fb c = ⟨.error e, c, 1, []⟩ := by
      show fetchAux o sym fb 3 c 1 none 3 = _
      exact fetchAux_fail_step hcl
    rw [E]
  · intro o sym c hdr pf p h1 hv hg
    have hcl : classifyAttempt sym true c (o 1) = .done p c := by
      rw [h1]; exact classify_200_missing_fb_hit sym c hdr pf p hv hg
    have E : fetch o sym true c = ⟨.ok p, c, 1, []⟩ := by
      show fetchAux o sym true 3 c 1 none 3 = _
      exact fetchAux_done_step hcl
    rw [E]

/-- Witness for C7 (amended): a first-attempt 418 client error surfaces as
its error. -/
theorem c7_error_kind_distinction_witness :
    (fetch (constOutcome (.response 418 none (.object none))) "BTC" false []).result =
      .error (.clientError 418) :=
  c7_error_kind_distinction.2.2.2.2.2.2.2.1
    (constOutcome (.response 418 none (.object none))) "BTC" false []
    (.clientError 418) rfl

end PriceClient
